import Mathlib

/-!
Verification development for the kysely-otel instrumentation library
(src/mod.ts): a query summarizer mapping a compiled query's root
operation node to a span name, and two prototype-patching wrappers that
surround Kysely's transaction execution and query execution with an
OpenTelemetry span lifecycle.

The embedding follows the TypeScript source. JavaScript runtime values
thrown by the underlying execution are modelled by `JSValue`; spans are
modelled with an explicit event log so that ordering properties (the
span end happening last, status set only on failure, ...) are provable;
the patched entry points are modelled as executor transformers so that
repeated installation (double wrapping) is expressible.
-/

namespace KyselyOtel

/-! ### JavaScript runtime values -/

/-- A primitive JavaScript value as it can appear in a field of a thrown
object. `objVal` stands for a nested object reference (opaque: the
instrumentation never looks inside nested objects). -/
inductive JSPrimitive where
  | str (s : String)
  | num (n : Int)
  | boolV (b : Bool)
  | nullV
  | undefinedV
  | objVal (id : Nat)
  deriving DecidableEq

/-- A JavaScript value as observed by the catch blocks in src/mod.ts.
An object carries its enumerable fields, whether `Error.isError` holds
for it, and the string produced by `String(value)`. -/
inductive JSValue where
  | str (s : String)
  | num (n : Int)
  | boolV (b : Bool)
  | nullV
  | undefinedV
  | obj (fields : List (String × JSPrimitive)) (isErr : Bool) (strRepr : String)
  deriving DecidableEq

/-- The guard `typeof err === "object" && err !== null && "code" in err &&
typeof err.code === "string"` from src/mod.ts. -/
def hasStringCode : JSValue → Bool
  | JSValue.obj fields _ _ =>
    match List.lookup "code" fields with
    | some (JSPrimitive.str _) => true
    | _ => false
  | _ => false

/-- The value of `err.code` read by the catch blocks (junk when the
guard `hasStringCode` is false, in which case it is never read). -/
def codeOfErr : JSValue → String
  | JSValue.obj fields _ _ =>
    match List.lookup "code" fields with
    | some (JSPrimitive.str c) => c
    | _ => ""
  | _ => ""

/-- `Error.isError(err)`: whether the thrown value is a recognized
error object. -/
def isErrorValue : JSValue → Bool
  | JSValue.obj _ isErr _ => isErr
  | _ => false

/-- `typeof v === "object" && v !== null`. -/
def jsIsObject : JSValue → Bool
  | JSValue.obj _ _ _ => true
  | _ => false

/-- `String(err)`: the stringification used for the span status
message. -/
def jsToString : JSValue → String
  | JSValue.str s => s
  | JSValue.num n => toString n
  | JSValue.boolV b => if b then "true" else "false"
  | JSValue.nullV => "null"
  | JSValue.undefinedV => "undefined"
  | JSValue.obj _ _ strRepr => strRepr

/-! ### Span model -/

/-- Attribute values used by the instrumentation: strings and
non-negative counts. -/
inductive AttrValue where
  | str (s : String)
  | int (n : Nat)
  deriving DecidableEq

inductive SpanKind where
  | internal
  | server
  | client
  | producer
  | consumer
  deriving DecidableEq

inductive StatusCode where
  | unset
  | ok
  | error
  deriving DecidableEq

structure SpanStatus where
  code : StatusCode
  message : String
  deriving DecidableEq

/-- One mutation performed on a span after it was started. Keeping the
full log (rather than only the final state) lets theorems speak about
how often and in which order the operations ran. -/
inductive SpanEvent where
  | setAttr (key : String) (value : AttrValue)
  | recordExc (err : JSValue)
  | setStat (status : SpanStatus)
  | endEv
  deriving DecidableEq

structure Span where
  name : String
  kind : SpanKind
  initialAttributes : List (String × AttrValue)
  events : List SpanEvent
  deriving DecidableEq

def startSpan (name : String) (kind : SpanKind)
    (attrs : List (String × AttrValue)) : Span :=
  { name := name, kind := kind, initialAttributes := attrs, events := [] }

def setAttribute (s : Span) (key : String) (value : AttrValue) : Span :=
  { s with events := s.events ++ [SpanEvent.setAttr key value] }

def recordException (s : Span) (err : JSValue) : Span :=
  { s with events := s.events ++ [SpanEvent.recordExc err] }

def setStatus (s : Span) (st : SpanStatus) : Span :=
  { s with events := s.events ++ [SpanEvent.setStat st] }

def endSpan (s : Span) : Span :=
  { s with events := s.events ++ [SpanEvent.endEv] }

def attrProj : SpanEvent → Option (String × AttrValue)
  | SpanEvent.setAttr k v => some (k, v)
  | SpanEvent.recordExc _ => none
  | SpanEvent.setStat _ => none
  | SpanEvent.endEv => none

/-- All attribute writes performed on the span, in order. -/
def attrWrites (s : Span) : List (String × AttrValue) :=
  s.events.filterMap attrProj

/-- The final value of an attribute: initial attributes possibly
overwritten by later `setAttribute` calls (last write wins). -/
def getAttr (s : Span) (key : String) : Option AttrValue :=
  List.lookup key ((s.initialAttributes ++ attrWrites s).reverse)

def statProj : SpanEvent → Option SpanStatus
  | SpanEvent.setAttr _ _ => none
  | SpanEvent.recordExc _ => none
  | SpanEvent.setStat st => some st
  | SpanEvent.endEv => none

/-- All `setStatus` calls performed on the span, in order. -/
def statusWrites (s : Span) : List SpanStatus :=
  s.events.filterMap statProj

/-- The span's final status: the last `setStatus` write, if any. -/
def finalStatus (s : Span) : Option SpanStatus :=
  (statusWrites s).getLast?

def excProj : SpanEvent → Option JSValue
  | SpanEvent.setAttr _ _ => none
  | SpanEvent.recordExc err => some err
  | SpanEvent.setStat _ => none
  | SpanEvent.endEv => none

/-- All exceptions recorded on the span, in order. -/
def recordedExceptions (s : Span) : List JSValue :=
  s.events.filterMap excProj

def isEndEvent : SpanEvent → Bool
  | SpanEvent.setAttr _ _ => false
  | SpanEvent.recordExc _ => false
  | SpanEvent.setStat _ => false
  | SpanEvent.endEv => true

/-- How many times `end()` was called on the span. -/
def endEventCount (s : Span) : Nat :=
  (s.events.filter isEndEvent).length

/-! ### Kysely operation nodes, as src/mod.ts reads them -/

/-- `node.table` of a `TableNode`: a schemable identifier with an
optional schema name and the table identifier name. -/
structure TableIdentifier where
  schema : Option String
  identifier : String
  deriving DecidableEq

/-- A node appearing in a from-list or join-list: either a plain table
reference (`TableNode.is` holds) or any other operation node. -/
inductive OperationNode where
  | tableNode (table : TableIdentifier)
  | otherNode (kind : String)
  deriving DecidableEq

/-- The `from` clause: `FromNode` with its `froms` array. -/
structure FromNode where
  froms : List OperationNode
  deriving DecidableEq

/-- The root operation node of a compiled query, with exactly the
fields src/mod.ts reads for each kind. For a delete query the `from`
clause is carried as an `Option` so that the unguarded access
`query.from.froms` can be analysed on an absent clause. -/
inductive RootOperationNode where
  | selectQueryNode (fromClause : Option FromNode)
      (joins : Option (List OperationNode))
  | insertQueryNode (into : Option TableIdentifier)
  | updateQueryNode (table : Option OperationNode)
      (joins : Option (List OperationNode))
  | deleteQueryNode (fromClause : Option FromNode)
      (joins : Option (List OperationNode))
  | createTableNode
  | alterTableNode
  | dropTableNode
  | createIndexNode
  | dropIndexNode
  | createSchemaNode
  | dropSchemaNode
  | createTypeNode
  | dropTypeNode
  | createViewNode
  | dropViewNode
  | mergeQueryNode
  | refreshMaterializedViewNode (name : String) (concurrently : Bool)
  | otherRootNode (kind : String)
  deriving DecidableEq

/-- `CompiledQuery`: the root operation node plus the literal SQL
text. -/
structure CompiledQuery where
  query : RootOperationNode
  sql : String
  deriving DecidableEq

/-- `QueryResult`: only the `rows` array is observed (its length). -/
structure QueryResult where
  rows : List JSValue
  deriving DecidableEq

/-! ### The query summarizer (src/mod.ts, `summarizeQuery` and
helpers) -/

/-- `getTableName(node)`: `"<schema>.<table>"` when a schema is
present, else `"<table>"`. -/
def getTableName (node : TableIdentifier) : String :=
  match node.schema with
  | some schemaName => schemaName ++ "." ++ node.identifier
  | none => node.identifier

/-- `getTableNames(froms)`: map each node to its table name when it is
a plain table reference and to `""` otherwise, then `filter(Boolean)`
drops the empty strings. -/
def getTableNames (froms : List OperationNode) : List String :=
  (froms.map fun f =>
    match f with
    | OperationNode.tableNode t => getTableName t
    | OperationNode.otherNode _ => "").filter fun s => s != ""

/-- `summarizeQuery`. The result is `Except` because the
`DeleteQueryNode` branch reads `query.from.froms` without a presence
check: on an absent `from` clause the JavaScript code throws a
`TypeError`, modelled here as `Except.error ()`. Every other branch
returns a string. -/
def summarizeQuery : RootOperationNode → Except Unit String
  | RootOperationNode.selectQueryNode fromClause joins =>
    let summary :=
      match fromClause with
      | some f =>
        if f.froms.length > 0 then
          "SELECT FROM " ++ String.intercalate ", " (getTableNames f.froms)
        else
          "SELECT"
      | none => "SELECT"
    let summary :=
      match joins with
      | some js =>
        if js.length > 0 then
          summary ++ " JOIN " ++ String.intercalate ", " (getTableNames js)
        else
          summary
      | none => summary
    Except.ok summary
  | RootOperationNode.insertQueryNode into =>
    match into with
    | some t => Except.ok ("INSERT INTO " ++ getTableName t)
    | none => Except.ok "INSERT"
  | RootOperationNode.updateQueryNode table joins =>
    let summary :=
      match table with
      | some (OperationNode.tableNode t) => "UPDATE " ++ getTableName t
      | _ => "UPDATE"
    let summary :=
      match joins with
      | some js =>
        if js.length > 0 then
          summary ++ " JOIN " ++ String.intercalate ", " (getTableNames js)
        else
          summary
      | none => summary
    Except.ok summary
  | RootOperationNode.deleteQueryNode fromClause joins =>
    match fromClause with
    | none => Except.error ()
    | some f =>
      let summary :=
        "DELETE FROM " ++ String.intercalate ", " (getTableNames f.froms)
      let summary :=
        match joins with
        | some js =>
          if js.length > 0 then
            summary ++ " JOIN " ++ String.intercalate ", " (getTableNames js)
          else
            summary
        | none => summary
      Except.ok summary
  | RootOperationNode.createTableNode => Except.ok "DDL Operation"
  | RootOperationNode.alterTableNode => Except.ok "DDL Operation"
  | RootOperationNode.dropTableNode => Except.ok "DDL Operation"
  | RootOperationNode.createIndexNode => Except.ok "DDL Operation"
  | RootOperationNode.dropIndexNode => Except.ok "DDL Operation"
  | RootOperationNode.createSchemaNode => Except.ok "DDL Operation"
  | RootOperationNode.dropSchemaNode => Except.ok "DDL Operation"
  | RootOperationNode.createTypeNode => Except.ok "DDL Operation"
  | RootOperationNode.dropTypeNode => Except.ok "DDL Operation"
  | RootOperationNode.createViewNode => Except.ok "DDL Operation"
  | RootOperationNode.dropViewNode => Except.ok "DDL Operation"
  | RootOperationNode.mergeQueryNode => Except.ok "MERGE"
  | RootOperationNode.refreshMaterializedViewNode name concurrently =>
    let summary := "REFRESH MATERIALIZED VIEW"
    let summary := if name != "" then summary ++ " " ++ name else summary
    let summary := if concurrently then summary ++ " CONCURRENTLY" else summary
    Except.ok summary
  | RootOperationNode.otherRootNode _ => Except.ok "RAW SQL"

/-- Whether the root node is a delete query whose `from` clause is
absent: the only input on which `summarizeQuery` fails. -/
def deleteFromAbsent : RootOperationNode → Bool
  | RootOperationNode.deleteQueryNode none _ => true
  | _ => false

/-! ### The summarization table of the specification

The following definitions transcribe section 4.2 of the spec (the
kind-to-name table, the table-name formatting rule and the list
extraction rule), to be compared with `summarizeQuery` above. -/

/-- Spec rule: a qualified reference renders as `"<schema>.<table>"`
when a schema is present, else `"<table>"`. -/
def specRenderTable (t : TableIdentifier) : String :=
  match t.schema with
  | some s => s ++ "." ++ t.identifier
  | none => t.identifier

/-- Spec rule: map each node to its name if it is a plain table
reference, otherwise to empty string, then drop empty entries. -/
def specExtractTableList (nodes : List OperationNode) : List String :=
  (nodes.map fun n =>
    match n with
    | OperationNode.tableNode t => specRenderTable t
    | _ => "").filter fun s => s != ""

/-- Spec rule: append `" JOIN <j1>, <j2>, ..."` to the base name when
joins are present. -/
def specAppendJoins (base : String)
    (joins : Option (List OperationNode)) : String :=
  match joins with
  | some js =>
    if js ≠ [] then
      base ++ " JOIN " ++ String.intercalate ", " (specExtractTableList js)
    else
      base
  | none => base

/-- The span-name table of spec section 4.2, one row per root node
kind. The delete row assumes the source-table list is present (the
spec states this assumption); the absent case is given an arbitrary
rendering here and is excluded by hypothesis where this definition is
compared with the code. -/
def specSummarize : RootOperationNode → String
  | RootOperationNode.selectQueryNode fromClause joins =>
    specAppendJoins
      (match fromClause with
       | some f =>
         if f.froms ≠ [] then
           "SELECT FROM " ++ String.intercalate ", " (specExtractTableList f.froms)
         else
           "SELECT"
       | none => "SELECT")
      joins
  | RootOperationNode.insertQueryNode (some t) =>
    "INSERT INTO " ++ specRenderTable t
  | RootOperationNode.insertQueryNode none => "INSERT"
  | RootOperationNode.updateQueryNode (some (OperationNode.tableNode t)) joins =>
    specAppendJoins ("UPDATE " ++ specRenderTable t) joins
  | RootOperationNode.updateQueryNode _ joins =>
    specAppendJoins "UPDATE" joins
  | RootOperationNode.deleteQueryNode (some f) joins =>
    specAppendJoins
      ("DELETE FROM " ++ String.intercalate ", " (specExtractTableList f.froms))
      joins
  | RootOperationNode.deleteQueryNode none joins =>
    specAppendJoins "DELETE FROM " joins
  | RootOperationNode.createTableNode => "DDL Operation"
  | RootOperationNode.alterTableNode => "DDL Operation"
  | RootOperationNode.dropTableNode => "DDL Operation"
  | RootOperationNode.createIndexNode => "DDL Operation"
  | RootOperationNode.dropIndexNode => "DDL Operation"
  | RootOperationNode.createSchemaNode => "DDL Operation"
  | RootOperationNode.dropSchemaNode => "DDL Operation"
  | RootOperationNode.createTypeNode => "DDL Operation"
  | RootOperationNode.dropTypeNode => "DDL Operation"
  | RootOperationNode.createViewNode => "DDL Operation"
  | RootOperationNode.dropViewNode => "DDL Operation"
  | RootOperationNode.mergeQueryNode => "MERGE"
  | RootOperationNode.refreshMaterializedViewNode name concurrently =>
    let base := "REFRESH MATERIALIZED VIEW"
    let withName := if name ≠ "" then base ++ " " ++ name else base
    if concurrently then withName ++ " CONCURRENTLY" else withName
  | RootOperationNode.otherRootNode _ => "RAW SQL"

/-! ### The intercepted entry points (src/mod.ts,
`setupInstrumentation`)

An installed entry point is modelled as a function from the call's
input to the outcome observed by the caller together with the list of
spans emitted during the call. The transaction entry point's input is
abstracted as the outcome of the captured original
`TransactionBuilder.prototype.execute` call; the query entry point's
input is the compiled query, with the behavior of the captured
original `executeQuery` supplied as a function. -/

/-- The type of (possibly already wrapped)
`TransactionBuilder.prototype.execute`. -/
abbrev TxExecutor (α : Type) := Except JSValue α → Except JSValue α × List Span

/-- The type of (possibly already wrapped)
`DefaultQueryExecutor.prototype.executeQuery`. -/
abbrev QExecutor := CompiledQuery → Except JSValue QueryResult × List Span

/-- The unpatched transaction execute: produces the underlying outcome
and emits no spans. -/
def baseTransactionExecute (α : Type) : TxExecutor α :=
  fun outcome => (outcome, [])

/-- The unpatched query execute: runs the underlying query function
and emits no spans. -/
def baseExecuteQuery
    (runQuery : CompiledQuery → Except JSValue QueryResult) : QExecutor :=
  fun q => (runQuery q, [])

/-- The `TypeError` thrown by `query.from.froms` when the `from`
clause of a delete query is absent. -/
def jsTypeErrorUndefinedFroms : JSValue :=
  JSValue.obj [] true "TypeError: Cannot read properties of undefined (reading froms)"

/-- The transaction wrapper installed by `setupInstrumentation`:
start a span named `"TRANSACTION"` (kind internal, initial attribute
`db.system.name = "postgres"`), run the captured original, and follow
the try/catch/finally of src/mod.ts lines 24-42. -/
def wrapTransactionExecute {α : Type}
    (transactionBuilderExecute : TxExecutor α) : TxExecutor α :=
  fun outcome =>
    let span := startSpan "TRANSACTION" SpanKind.internal
      [("db.system.name", AttrValue.str "postgres")]
    match transactionBuilderExecute outcome with
    | (Except.ok res, innerSpans) =>
      (Except.ok res, innerSpans ++ [endSpan span])
    | (Except.error err, innerSpans) =>
      let span :=
        if hasStringCode err then
          setAttribute span "db.response.status_code" (AttrValue.str (codeOfErr err))
        else span
      let span := if isErrorValue err then recordException span err else span
      let span :=
        setStatus span { code := StatusCode.error, message := jsToString err }
      (Except.error err, innerSpans ++ [endSpan span])

/-- The query wrapper installed by `setupInstrumentation`: summarize
the query (this may throw for a delete query with an absent `from`
clause, in which case no span is created), start a span with that name
(kind internal, initial attributes `db.system.name` and
`db.query.text`), run the captured original, and follow the
try/catch/finally of src/mod.ts lines 58-86. -/
def wrapExecuteQuery (defaultQueryExecutorExecuteQuery : QExecutor) : QExecutor :=
  fun query =>
    match summarizeQuery query.query with
    | Except.error _ => (Except.error jsTypeErrorUndefinedFroms, [])
    | Except.ok name =>
      let span := startSpan name SpanKind.internal
        [("db.system.name", AttrValue.str "postgres"),
         ("db.query.text", AttrValue.str query.sql)]
      match defaultQueryExecutorExecuteQuery query with
      | (Except.ok res, innerSpans) =>
        let span :=
          setAttribute span "db.response.returned_rows" (AttrValue.int res.rows.length)
        (Except.ok res, innerSpans ++ [endSpan span])
      | (Except.error err, innerSpans) =>
        let span :=
          if hasStringCode err then
            setAttribute span "db.response.status_code" (AttrValue.str (codeOfErr err))
          else span
        let span := if isErrorValue err then recordException span err else span
        let span :=
          setStatus span { code := StatusCode.error, message := jsToString err }
        (Except.error err, innerSpans ++ [endSpan span])

/-- The two patchable prototype slots of the Kysely library. -/
structure KyselyPrototypes (α : Type) where
  transactionExecute : TxExecutor α
  executeQuery : QExecutor

/-- `setupInstrumentation(tracer)`: capture the currently installed
entry points and replace each with its wrapper (src/mod.ts lines
17-88). Calling it again wraps the already wrapped entry points. -/
def setupInstrumentation {α : Type}
    (proto : KyselyPrototypes α) : KyselyPrototypes α :=
  let transactionBuilderExecute := proto.transactionExecute
  let defaultQueryExecutorExecuteQuery := proto.executeQuery
  { transactionExecute := wrapTransactionExecute transactionBuilderExecute
    executeQuery := wrapExecuteQuery defaultQueryExecutorExecuteQuery }

/-- The prototypes as shipped by Kysely, before any installation. -/
def basePrototypes (α : Type)
    (runQuery : CompiledQuery → Except JSValue QueryResult) :
    KyselyPrototypes α :=
  { transactionExecute := baseTransactionExecute α
    executeQuery := baseExecuteQuery runQuery }

/-- A single intercepted transaction execution after one
installation. -/
def runWrappedTransaction {α : Type} (outcome : Except JSValue α) :
    Except JSValue α × List Span :=
  wrapTransactionExecute (baseTransactionExecute α) outcome

/-- A single intercepted query execution after one installation. -/
def runWrappedQuery
    (runQuery : CompiledQuery → Except JSValue QueryResult)
    (q : CompiledQuery) : Except JSValue QueryResult × List Span :=
  wrapExecuteQuery (baseExecuteQuery runQuery) q

/-- The single span emitted by an intercepted call (a junk span when
none was emitted; every use is guarded by a proof that exactly one
span was emitted). -/
def soleSpan {β : Type} (out : Except JSValue β × List Span) : Span :=
  out.2.headD (startSpan "" SpanKind.internal [])

/-! ### Theorems about the query summarizer -/

theorem specRenderTable_eq_getTableName (t : TableIdentifier) :
    specRenderTable t = getTableName t := by
  cases t with
  | mk schema identifier => cases schema <;> rfl

theorem specExtractTableList_eq_getTableNames (l : List OperationNode) :
    specExtractTableList l = getTableNames l := by
  unfold specExtractTableList getTableNames
  congr 1
  apply List.map_congr_left
  intro a _
  cases a with
  | tableNode t => simp [specRenderTable_eq_getTableName]
  | otherNode k => rfl

/-- Claim C5 counterexample: on a delete query whose `from` clause is
absent the summarizer does not return a span name: the unguarded field
access `query.from.froms` fails. -/
theorem summarizeQuery_delete_absent_from_throws :
    summarizeQuery (RootOperationNode.deleteQueryNode none none) = Except.error () :=
  rfl

/-- Claim C5 (amended): the Query Summarizer is a pure function that
returns a span name string without failing for every compiled query
root node of every kind whose `from` clause access is guarded, i.e.
for every node except a delete node whose source-table list is absent;
in particular a delete node with an empty source-table list still
yields a string. -/
theorem summarizeQuery_total_except_absent_delete_from
    (n : RootOperationNode) (h : deleteFromAbsent n = false) :
    (summarizeQuery n).isOk = true := by
  cases n with
  | selectQueryNode fromClause joins => rfl
  | insertQueryNode into => rcases into with _ | t <;> rfl
  | updateQueryNode table joins => rfl
  | deleteQueryNode fromClause joins =>
    rcases fromClause with _ | f
    · simp [deleteFromAbsent] at h
    · rfl
  | createTableNode => rfl
  | alterTableNode => rfl
  | dropTableNode => rfl
  | createIndexNode => rfl
  | dropIndexNode => rfl
  | createSchemaNode => rfl
  | dropSchemaNode => rfl
  | createTypeNode => rfl
  | dropTypeNode => rfl
  | createViewNode => rfl
  | dropViewNode => rfl
  | mergeQueryNode => rfl
  | refreshMaterializedViewNode name concurrently => rfl
  | otherRootNode kind => rfl

theorem summarizeQuery_total_except_absent_delete_from_witness :
    deleteFromAbsent (RootOperationNode.deleteQueryNode
      (some { froms := [] }) none) = false ∧
    (summarizeQuery (RootOperationNode.deleteQueryNode
      (some { froms := [] }) none)).isOk = true :=
  ⟨rfl, summarizeQuery_total_except_absent_delete_from _ rfl⟩

/-- Claim C2: on every compiled query root node (excluding only the
delete-with-absent-from-clause input, on which the code fails instead
of producing a name), the summarizer produces exactly the name given
by the table of spec section 4.2, transcribed as `specSummarize`. -/
theorem summarizeQuery_matches_spec_table (n : RootOperationNode)
    (h : deleteFromAbsent n = false) :
    summarizeQuery n = Except.ok (specSummarize n) := by
  cases n with
  | selectQueryNode fromClause joins =>
    rcases fromClause with _ | f <;> rcases joins with _ | js <;>
      simp [summarizeQuery, specSummarize, specAppendJoins,
        specExtractTableList_eq_getTableNames, List.length_pos]
  | insertQueryNode into =>
    rcases into with _ | t <;>
      simp [summarizeQuery, specSummarize, specRenderTable_eq_getTableName]
  | updateQueryNode table joins =>
    rcases table with _ | (t | k) <;> rcases joins with _ | js <;>
      simp [summarizeQuery, specSummarize, specAppendJoins,
        specExtractTableList_eq_getTableNames, specRenderTable_eq_getTableName,
        List.length_pos]
  | deleteQueryNode fromClause joins =>
    rcases fromClause with _ | f
    · simp [deleteFromAbsent] at h
    · rcases joins with _ | js <;>
        simp [summarizeQuery, specSummarize, specAppendJoins,
          specExtractTableList_eq_getTableNames, List.length_pos]
  | createTableNode => rfl
  | alterTableNode => rfl
  | dropTableNode => rfl
  | createIndexNode => rfl
  | dropIndexNode => rfl
  | createSchemaNode => rfl
  | dropSchemaNode => rfl
  | createTypeNode => rfl
  | dropTypeNode => rfl
  | createViewNode => rfl
  | dropViewNode => rfl
  | mergeQueryNode => rfl
  | refreshMaterializedViewNode name concurrently =>
    rcases eq_or_ne name "" with hn | hn <;> cases concurrently <;>
      simp [summarizeQuery, specSummarize, hn, bne_iff_ne]
  | otherRootNode kind => rfl

theorem summarizeQuery_matches_spec_table_witness :
    deleteFromAbsent (RootOperationNode.selectQueryNode
      (some { froms := [OperationNode.tableNode { schema := some "public", identifier := "users" }] })
      (some [OperationNode.otherNode "JoinNode"])) = false ∧
    summarizeQuery (RootOperationNode.selectQueryNode
      (some { froms := [OperationNode.tableNode { schema := some "public", identifier := "users" }] })
      (some [OperationNode.otherNode "JoinNode"])) =
      Except.ok (specSummarize (RootOperationNode.selectQueryNode
        (some { froms := [OperationNode.tableNode { schema := some "public", identifier := "users" }] })
        (some [OperationNode.otherNode "JoinNode"]))) :=
  ⟨rfl, summarizeQuery_matches_spec_table _ rfl⟩

/-! ### Normal forms of the intercepted entry points after one
installation -/

/-- The event sequence produced by the catch/finally error path shared
by both wrappers: the optional status-code attribute write, the
optional exception record, the ERROR status write, then the span
end. -/
def errorEvents (err : JSValue) : List SpanEvent :=
  (if hasStringCode err then
    [SpanEvent.setAttr "db.response.status_code" (AttrValue.str (codeOfErr err))]
  else []) ++
  (if isErrorValue err then [SpanEvent.recordExc err] else []) ++
  [SpanEvent.setStat { code := StatusCode.error, message := jsToString err },
   SpanEvent.endEv]

theorem runWrappedTransaction_ok {α : Type} (r : α) :
    runWrappedTransaction (Except.ok r) =
      (Except.ok r,
        [{ name := "TRANSACTION", kind := SpanKind.internal,
           initialAttributes := [("db.system.name", AttrValue.str "postgres")],
           events := [SpanEvent.endEv] }]) :=
  rfl

theorem runWrappedTransaction_error {α : Type} (err : JSValue) :
    runWrappedTransaction ((Except.error err : Except JSValue α)) =
      (Except.error err,
        [{ name := "TRANSACTION", kind := SpanKind.internal,
           initialAttributes := [("db.system.name", AttrValue.str "postgres")],
           events := errorEvents err }]) := by
  cases hb : hasStringCode err <;> cases hc : isErrorValue err <;>
    simp [runWrappedTransaction, wrapTransactionExecute, baseTransactionExecute,
      errorEvents, hb, hc, startSpan, setAttribute, recordException, setStatus,
      endSpan]

theorem runWrappedQuery_ok
    (runQuery : CompiledQuery → Except JSValue QueryResult) (q : CompiledQuery)
    (name : String) (res : QueryResult)
    (hs : summarizeQuery q.query = Except.ok name)
    (hq : runQuery q = Except.ok res) :
    runWrappedQuery runQuery q =
      (Except.ok res,
        [{ name := name, kind := SpanKind.internal,
           initialAttributes := [("db.system.name", AttrValue.str "postgres"),
             ("db.query.text", AttrValue.str q.sql)],
           events := [SpanEvent.setAttr "db.response.returned_rows"
               (AttrValue.int res.rows.length),
             SpanEvent.endEv] }]) := by
  simp [runWrappedQuery, wrapExecuteQuery, baseExecuteQuery, hs, hq, startSpan,
    setAttribute, endSpan]

theorem runWrappedQuery_error
    (runQuery : CompiledQuery → Except JSValue QueryResult) (q : CompiledQuery)
    (name : String) (err : JSValue)
    (hs : summarizeQuery q.query = Except.ok name)
    (hq : runQuery q = Except.error err) :
    runWrappedQuery runQuery q =
      (Except.error err,
        [{ name := name, kind := SpanKind.internal,
           initialAttributes := [("db.system.name", AttrValue.str "postgres"),
             ("db.query.text", AttrValue.str q.sql)],
           events := errorEvents err }]) := by
  cases hb : hasStringCode err <;> cases hc : isErrorValue err <;>
    simp [runWrappedQuery, wrapExecuteQuery, baseExecuteQuery, hs, hq,
      errorEvents, hb, hc, startSpan, setAttribute, recordException, setStatus,
      endSpan]

theorem errorEvents_filter_end (err : JSValue) :
    ((errorEvents err).filter isEndEvent).length = 1 := by
  cases hb : hasStringCode err <;> cases hc : isErrorValue err <;>
    simp [errorEvents, hb, hc, isEndEvent]

theorem errorEvents_getLast (err : JSValue) :
    (errorEvents err).getLast? = some SpanEvent.endEv := by
  cases hb : hasStringCode err <;> cases hc : isErrorValue err <;>
    simp [errorEvents, hb, hc]

theorem errorEvents_statProj (err : JSValue) :
    (errorEvents err).filterMap statProj =
      [{ code := StatusCode.error, message := jsToString err }] := by
  cases hb : hasStringCode err <;> cases hc : isErrorValue err <;>
    simp [errorEvents, hb, hc, statProj]

theorem errorEvents_excProj (err : JSValue) :
    (errorEvents err).filterMap excProj =
      if isErrorValue err then [err] else [] := by
  cases hb : hasStringCode err <;> cases hc : isErrorValue err <;>
    simp [errorEvents, hb, hc, excProj]

theorem errorEvents_attrProj (err : JSValue) :
    (errorEvents err).filterMap attrProj =
      if hasStringCode err then
        [("db.response.status_code", AttrValue.str (codeOfErr err))]
      else [] := by
  cases hb : hasStringCode err <;> cases hc : isErrorValue err <;>
    simp [errorEvents, hb, hc, attrProj]

theorem exists_ok_of_isOk {n : RootOperationNode}
    (h : (summarizeQuery n).isOk = true) :
    ∃ name, summarizeQuery n = Except.ok name := by
  cases hs : summarizeQuery n with
  | ok v => exact ⟨v, rfl⟩
  | error e => rw [hs] at h; simp [Except.isOk, Except.toBool] at h

/-! ### Theorems about the span lifecycle -/

/-- Claim C1: for every intercepted call (wrapped transaction
execution and wrapped query execution), exactly one span is created
and exactly one span is ended, on every exit path (success or thrown
error with re-throw), and the end is the last operation performed on
the span, after status and attributes are finalized. -/
theorem span_created_and_ended_exactly_once {α : Type}
    (outcome : Except JSValue α)
    (runQuery : CompiledQuery → Except JSValue QueryResult) (q : CompiledQuery)
    (h : (summarizeQuery q.query).isOk = true) :
    (runWrappedTransaction outcome).2.length = 1 ∧
    endEventCount (soleSpan (runWrappedTransaction outcome)) = 1 ∧
    (soleSpan (runWrappedTransaction outcome)).events.getLast? =
      some SpanEvent.endEv ∧
    (runWrappedQuery runQuery q).2.length = 1 ∧
    endEventCount (soleSpan (runWrappedQuery runQuery q)) = 1 ∧
    (soleSpan (runWrappedQuery runQuery q)).events.getLast? =
      some SpanEvent.endEv := by
  obtain ⟨name, hs⟩ := exists_ok_of_isOk h
  have htx : (runWrappedTransaction outcome).2.length = 1 ∧
      endEventCount (soleSpan (runWrappedTransaction outcome)) = 1 ∧
      (soleSpan (runWrappedTransaction outcome)).events.getLast? =
        some SpanEvent.endEv := by
    cases outcome with
    | ok r =>
      rw [runWrappedTransaction_ok]
      exact ⟨rfl, rfl, rfl⟩
    | error err =>
      rw [runWrappedTransaction_error]
      exact ⟨rfl, by simp [soleSpan, endEventCount, errorEvents_filter_end],
        by simp [soleSpan, errorEvents_getLast]⟩
  have hqy : (runWrappedQuery runQuery q).2.length = 1 ∧
      endEventCount (soleSpan (runWrappedQuery runQuery q)) = 1 ∧
      (soleSpan (runWrappedQuery runQuery q)).events.getLast? =
        some SpanEvent.endEv := by
    cases hr : runQuery q with
    | ok res =>
      rw [runWrappedQuery_ok runQuery q name res hs hr]
      exact ⟨rfl, rfl, rfl⟩
    | error err =>
      rw [runWrappedQuery_error runQuery q name err hs hr]
      exact ⟨rfl, by simp [soleSpan, endEventCount, errorEvents_filter_end],
        by simp [soleSpan, errorEvents_getLast]⟩
  exact ⟨htx.1, htx.2.1, htx.2.2, hqy.1, hqy.2.1, hqy.2.2⟩

theorem span_created_and_ended_exactly_once_witness :
    (summarizeQuery RootOperationNode.mergeQueryNode).isOk = true ∧
    (runWrappedQuery (fun _ => Except.ok { rows := [JSValue.nullV] })
      { query := RootOperationNode.mergeQueryNode, sql := "MERGE INTO a USING b" }).2.length = 1 ∧
    endEventCount (soleSpan (runWrappedQuery
      (fun _ => Except.ok { rows := [JSValue.nullV] })
      { query := RootOperationNode.mergeQueryNode, sql := "MERGE INTO a USING b" })) = 1 :=
  ⟨rfl,
    (span_created_and_ended_exactly_once (Except.ok (0 : Nat))
      (fun _ => Except.ok { rows := [JSValue.nullV] })
      { query := RootOperationNode.mergeQueryNode, sql := "MERGE INTO a USING b" }
      rfl).2.2.2.1,
    (span_created_and_ended_exactly_once (Except.ok (0 : Nat))
      (fun _ => Except.ok { rows := [JSValue.nullV] })
      { query := RootOperationNode.mergeQueryNode, sql := "MERGE INTO a USING b" }
      rfl).2.2.2.2.1⟩

/-- Claim C3: for every failing intercepted execution (transaction or
query): if the thrown value carries a string-typed `code` field, the
span attribute `db.response.status_code` is set to that code; if the
thrown value is a recognized error object, it is recorded as an
exception on the span; the span status is set to ERROR with message
equal to the stringified thrown value; and the original thrown value
is re-thrown unchanged. -/
theorem failure_records_code_exception_status_and_rethrows {α : Type}
    (err : JSValue)
    (runQuery : CompiledQuery → Except JSValue QueryResult) (q : CompiledQuery)
    (h : (summarizeQuery q.query).isOk = true)
    (hq : runQuery q = Except.error err) :
    (runWrappedTransaction ((Except.error err : Except JSValue α))).1 =
      Except.error err ∧
    finalStatus (soleSpan (runWrappedTransaction
        ((Except.error err : Except JSValue α)))) =
      some { code := StatusCode.error, message := jsToString err } ∧
    (hasStringCode err = true →
      getAttr (soleSpan (runWrappedTransaction
          ((Except.error err : Except JSValue α)))) "db.response.status_code" =
        some (AttrValue.str (codeOfErr err))) ∧
    (isErrorValue err = true →
      recordedExceptions (soleSpan (runWrappedTransaction
        ((Except.error err : Except JSValue α)))) = [err]) ∧
    (runWrappedQuery runQuery q).1 = Except.error err ∧
    finalStatus (soleSpan (runWrappedQuery runQuery q)) =
      some { code := StatusCode.error, message := jsToString err } ∧
    (hasStringCode err = true →
      getAttr (soleSpan (runWrappedQuery runQuery q)) "db.response.status_code" =
        some (AttrValue.str (codeOfErr err))) ∧
    (isErrorValue err = true →
      recordedExceptions (soleSpan (runWrappedQuery runQuery q)) = [err]) := by
  obtain ⟨name, hs⟩ := exists_ok_of_isOk h
  rw [runWrappedTransaction_error, runWrappedQuery_error runQuery q name err hs hq]
  refine ⟨rfl, ?_, ?_, ?_, rfl, ?_, ?_, ?_⟩
  · simp [soleSpan, finalStatus, statusWrites, errorEvents_statProj]
  · intro hb
    simp [soleSpan, getAttr, attrWrites, errorEvents_attrProj, hb]
  · intro hc
    simp [soleSpan, recordedExceptions, errorEvents_excProj, hc]
  · simp [soleSpan, finalStatus, statusWrites, errorEvents_statProj]
  · intro hb
    simp [soleSpan, getAttr, attrWrites, errorEvents_attrProj, hb]
  · intro hc
    simp [soleSpan, recordedExceptions, errorEvents_excProj, hc]

theorem failure_records_code_exception_status_and_rethrows_witness :
    (summarizeQuery RootOperationNode.mergeQueryNode).isOk = true ∧
    ((fun (_ : CompiledQuery) => Except.error (JSValue.obj
        [("code", JSPrimitive.str "23505")] true "error: duplicate key"))
      { query := RootOperationNode.mergeQueryNode, sql := "MERGE INTO a USING b" } =
      (Except.error (JSValue.obj [("code", JSPrimitive.str "23505")] true
        "error: duplicate key") : Except JSValue QueryResult)) ∧
    (runWrappedQuery (fun _ => Except.error (JSValue.obj
        [("code", JSPrimitive.str "23505")] true "error: duplicate key"))
      { query := RootOperationNode.mergeQueryNode, sql := "MERGE INTO a USING b" }).1 =
      Except.error (JSValue.obj [("code", JSPrimitive.str "23505")] true
        "error: duplicate key") ∧
    getAttr (soleSpan (runWrappedQuery (fun _ => Except.error (JSValue.obj
        [("code", JSPrimitive.str "23505")] true "error: duplicate key"))
      { query := RootOperationNode.mergeQueryNode, sql := "MERGE INTO a USING b" }))
      "db.response.status_code" = some (AttrValue.str "23505") :=
  ⟨rfl, rfl,
    (failure_records_code_exception_status_and_rethrows (α := Nat)
      (JSValue.obj [("code", JSPrimitive.str "23505")] true "error: duplicate key")
      (fun _ => Except.error (JSValue.obj [("code", JSPrimitive.str "23505")] true
        "error: duplicate key"))
      { query := RootOperationNode.mergeQueryNode, sql := "MERGE INTO a USING b" }
      rfl rfl).2.2.2.2.1,
    (failure_records_code_exception_status_and_rethrows (α := Nat)
      (JSValue.obj [("code", JSPrimitive.str "23505")] true "error: duplicate key")
      (fun _ => Except.error (JSValue.obj [("code", JSPrimitive.str "23505")] true
        "error: duplicate key"))
      { query := RootOperationNode.mergeQueryNode, sql := "MERGE INTO a USING b" }
      rfl rfl).2.2.2.2.2.2.1 rfl⟩

/-- Claim C4: for every successful wrapped query execution, the span
attribute `db.response.returned_rows` is set to the count of rows in
the underlying result, and the value returned to the caller is the
original underlying result unchanged. -/
theorem success_sets_returned_rows_and_returns_result
    (runQuery : CompiledQuery → Except JSValue QueryResult) (q : CompiledQuery)
    (res : QueryResult)
    (h : (summarizeQuery q.query).isOk = true)
    (hq : runQuery q = Except.ok res) :
    (runWrappedQuery runQuery q).1 = Except.ok res ∧
    getAttr (soleSpan (runWrappedQuery runQuery q)) "db.response.returned_rows" =
      some (AttrValue.int res.rows.length) := by
  obtain ⟨name, hs⟩ := exists_ok_of_isOk h
  rw [runWrappedQuery_ok runQuery q name res hs hq]
  exact ⟨rfl, by simp [soleSpan, getAttr, attrWrites, attrProj, List.lookup]⟩

theorem success_sets_returned_rows_and_returns_result_witness :
    (summarizeQuery RootOperationNode.mergeQueryNode).isOk = true ∧
    ((fun (_ : CompiledQuery) =>
        Except.ok { rows := [JSValue.nullV, JSValue.nullV] })
      { query := RootOperationNode.mergeQueryNode, sql := "MERGE INTO a USING b" } =
      (Except.ok { rows := [JSValue.nullV, JSValue.nullV] } :
        Except JSValue QueryResult)) ∧
    getAttr (soleSpan (runWrappedQuery
      (fun _ => Except.ok { rows := [JSValue.nullV, JSValue.nullV] })
      { query := RootOperationNode.mergeQueryNode, sql := "MERGE INTO a USING b" }))
      "db.response.returned_rows" = some (AttrValue.int 2) :=
  ⟨rfl, rfl,
    (success_sets_returned_rows_and_returns_result
      (fun _ => Except.ok { rows := [JSValue.nullV, JSValue.nullV] })
      { query := RootOperationNode.mergeQueryNode, sql := "MERGE INTO a USING b" }
      { rows := [JSValue.nullV, JSValue.nullV] } rfl rfl).2⟩

/-- Claim C6: for every intercepted execution whose underlying
operation throws a value that is not a recognized error object (for
example a plain string), the span still receives status ERROR with a
stringified message, exception-recording is not invoked, and that
exact thrown value is re-thrown to the caller. -/
theorem nonerror_throw_sets_status_without_exception {α : Type}
    (err : JSValue)
    (runQuery : CompiledQuery → Except JSValue QueryResult) (q : CompiledQuery)
    (h : (summarizeQuery q.query).isOk = true)
    (hq : runQuery q = Except.error err)
    (hne : isErrorValue err = false) :
    (runWrappedTransaction ((Except.error err : Except JSValue α))).1 =
      Except.error err ∧
    recordedExceptions (soleSpan (runWrappedTransaction
      ((Except.error err : Except JSValue α)))) = [] ∧
    finalStatus (soleSpan (runWrappedTransaction
        ((Except.error err : Except JSValue α)))) =
      some { code := StatusCode.error, message := jsToString err } ∧
    (runWrappedQuery runQuery q).1 = Except.error err ∧
    recordedExceptions (soleSpan (runWrappedQuery runQuery q)) = [] ∧
    finalStatus (soleSpan (runWrappedQuery runQuery q)) =
      some { code := StatusCode.error, message := jsToString err } := by
  obtain ⟨name, hs⟩ := exists_ok_of_isOk h
  rw [runWrappedTransaction_error, runWrappedQuery_error runQuery q name err hs hq]
  refine ⟨rfl, ?_, ?_, rfl, ?_, ?_⟩
  · simp [soleSpan, recordedExceptions, errorEvents_excProj, hne]
  · simp [soleSpan, finalStatus, statusWrites, errorEvents_statProj]
  · simp [soleSpan, recordedExceptions, errorEvents_excProj, hne]
  · simp [soleSpan, finalStatus, statusWrites, errorEvents_statProj]

theorem nonerror_throw_sets_status_without_exception_witness :
    (summarizeQuery RootOperationNode.mergeQueryNode).isOk = true ∧
    isErrorValue (JSValue.str "boom") = false ∧
    (runWrappedTransaction ((Except.error (JSValue.str "boom") :
        Except JSValue Nat))).1 = Except.error (JSValue.str "boom") ∧
    finalStatus (soleSpan (runWrappedTransaction ((Except.error (JSValue.str "boom") :
        Except JSValue Nat)))) =
      some { code := StatusCode.error, message := "boom" } ∧
    recordedExceptions (soleSpan (runWrappedTransaction
      ((Except.error (JSValue.str "boom") : Except JSValue Nat)))) = [] :=
  ⟨rfl, rfl,
    (nonerror_throw_sets_status_without_exception (α := Nat) (JSValue.str "boom")
      (fun _ => Except.error (JSValue.str "boom"))
      { query := RootOperationNode.mergeQueryNode, sql := "MERGE INTO a USING b" }
      rfl rfl rfl).1,
    (nonerror_throw_sets_status_without_exception (α := Nat) (JSValue.str "boom")
      (fun _ => Except.error (JSValue.str "boom"))
      { query := RootOperationNode.mergeQueryNode, sql := "MERGE INTO a USING b" }
      rfl rfl rfl).2.2.1,
    (nonerror_throw_sets_status_without_exception (α := Nat) (JSValue.str "boom")
      (fun _ => Except.error (JSValue.str "boom"))
      { query := RootOperationNode.mergeQueryNode, sql := "MERGE INTO a USING b" }
      rfl rfl rfl).2.1⟩

/-- Claim C7: every wrapped transaction execution starts a span named
exactly `"TRANSACTION"` with kind internal and initial attribute
`db.system.name = "postgres"`; every wrapped query execution starts a
span named by the Query Summarizer with kind internal and initial
attributes `db.system.name = "postgres"` and `db.query.text` equal to
the compiled query's literal SQL text. -/
theorem span_start_name_kind_attributes {α : Type}
    (outcome : Except JSValue α)
    (runQuery : CompiledQuery → Except JSValue QueryResult) (q : CompiledQuery)
    (name : String)
    (h : summarizeQuery q.query = Except.ok name) :
    (soleSpan (runWrappedTransaction outcome)).name = "TRANSACTION" ∧
    (soleSpan (runWrappedTransaction outcome)).kind = SpanKind.internal ∧
    (soleSpan (runWrappedTransaction outcome)).initialAttributes =
      [("db.system.name", AttrValue.str "postgres")] ∧
    (soleSpan (runWrappedQuery runQuery q)).name = name ∧
    (soleSpan (runWrappedQuery runQuery q)).kind = SpanKind.internal ∧
    (soleSpan (runWrappedQuery runQuery q)).initialAttributes =
      [("db.system.name", AttrValue.str "postgres"),
       ("db.query.text", AttrValue.str q.sql)] := by
  have htx : (soleSpan (runWrappedTransaction outcome)).name = "TRANSACTION" ∧
      (soleSpan (runWrappedTransaction outcome)).kind = SpanKind.internal ∧
      (soleSpan (runWrappedTransaction outcome)).initialAttributes =
        [("db.system.name", AttrValue.str "postgres")] := by
    cases outcome with
    | ok r => rw [runWrappedTransaction_ok]; exact ⟨rfl, rfl, rfl⟩
    | error err => rw [runWrappedTransaction_error]; exact ⟨rfl, rfl, rfl⟩
  have hqy : (soleSpan (runWrappedQuery runQuery q)).name = name ∧
      (soleSpan (runWrappedQuery runQuery q)).kind = SpanKind.internal ∧
      (soleSpan (runWrappedQuery runQuery q)).initialAttributes =
        [("db.system.name", AttrValue.str "postgres"),
         ("db.query.text", AttrValue.str q.sql)] := by
    cases hr : runQuery q with
    | ok res => rw [runWrappedQuery_ok runQuery q name res h hr]; exact ⟨rfl, rfl, rfl⟩
    | error err => rw [runWrappedQuery_error runQuery q name err h hr]; exact ⟨rfl, rfl, rfl⟩
  exact ⟨htx.1, htx.2.1, htx.2.2, hqy.1, hqy.2.1, hqy.2.2⟩

theorem span_start_name_kind_attributes_witness :
    summarizeQuery RootOperationNode.mergeQueryNode = Except.ok "MERGE" ∧
    (soleSpan (runWrappedTransaction (Except.ok (0 : Nat)))).name = "TRANSACTION" ∧
    (soleSpan (runWrappedQuery (fun _ => Except.ok { rows := [] })
      { query := RootOperationNode.mergeQueryNode, sql := "MERGE INTO a USING b" })).name =
      "MERGE" :=
  ⟨rfl,
    (span_start_name_kind_attributes (Except.ok (0 : Nat))
      (fun _ => Except.ok { rows := [] })
      { query := RootOperationNode.mergeQueryNode, sql := "MERGE INTO a USING b" }
      "MERGE" rfl).1,
    (span_start_name_kind_attributes (Except.ok (0 : Nat))
      (fun _ => Except.ok { rows := [] })
      { query := RootOperationNode.mergeQueryNode, sql := "MERGE INTO a USING b" }
      "MERGE" rfl).2.2.2.1⟩

/-- Claim C9: the span attribute `db.response.status_code` is present
exactly when the thrown value is a non-null object whose `code`
property is a string (the condition computed by `hasStringCode`); a
thrown primitive never produces this attribute, and no success path
produces it either. -/
theorem status_code_attribute_iff_object_with_string_code {α : Type}
    (err : JSValue) (r : α)
    (runQueryE runQueryS : CompiledQuery → Except JSValue QueryResult)
    (q : CompiledQuery) (res : QueryResult)
    (h : (summarizeQuery q.query).isOk = true)
    (hqe : runQueryE q = Except.error err)
    (hqs : runQueryS q = Except.ok res) :
    (getAttr (soleSpan (runWrappedTransaction
        ((Except.error err : Except JSValue α)))) "db.response.status_code").isSome =
      hasStringCode err ∧
    (getAttr (soleSpan (runWrappedQuery runQueryE q))
        "db.response.status_code").isSome = hasStringCode err ∧
    (jsIsObject err = false → hasStringCode err = false) ∧
    getAttr (soleSpan (runWrappedTransaction (Except.ok r)))
      "db.response.status_code" = none ∧
    getAttr (soleSpan (runWrappedQuery runQueryS q))
      "db.response.status_code" = none := by
  obtain ⟨name, hs⟩ := exists_ok_of_isOk h
  rw [runWrappedTransaction_error, runWrappedTransaction_ok,
    runWrappedQuery_error runQueryE q name err hs hqe,
    runWrappedQuery_ok runQueryS q name res hs hqs]
  refine ⟨?_, ?_, ?_, ?_, ?_⟩
  · cases hb : hasStringCode err <;>
      simp [soleSpan, getAttr, attrWrites, errorEvents_attrProj, hb]
  · cases hb : hasStringCode err <;>
      simp [soleSpan, getAttr, attrWrites, errorEvents_attrProj, hb]
  · intro hobj
    cases err <;> simp_all [jsIsObject, hasStringCode]
  · simp [soleSpan, getAttr, attrWrites, attrProj, List.lookup]
  · simp [soleSpan, getAttr, attrWrites, attrProj, List.lookup]

theorem status_code_attribute_iff_object_with_string_code_witness :
    (summarizeQuery RootOperationNode.mergeQueryNode).isOk = true ∧
    hasStringCode (JSValue.num 23505) = false ∧
    (getAttr (soleSpan (runWrappedTransaction
        ((Except.error (JSValue.num 23505) : Except JSValue Nat))))
      "db.response.status_code").isSome = false :=
  ⟨rfl, rfl,
    (status_code_attribute_iff_object_with_string_code (JSValue.num 23505)
      (0 : Nat) (fun _ => Except.error (JSValue.num 23505))
      (fun _ => Except.ok { rows := [] })
      { query := RootOperationNode.mergeQueryNode, sql := "MERGE INTO a USING b" }
      { rows := [] } rfl rfl rfl).1⟩

/-- Claim C10: on every successful intercepted execution (transaction
or query) the wrapper never calls `setStatus` on the span, so the span
status is left unset; `setStatus` is invoked only on the failure
path. -/
theorem success_leaves_status_unset {α : Type} (r : α) (err : JSValue)
    (runQuery runQueryE : CompiledQuery → Except JSValue QueryResult)
    (q : CompiledQuery) (res : QueryResult)
    (h : (summarizeQuery q.query).isOk = true)
    (hq : runQuery q = Except.ok res)
    (hqe : runQueryE q = Except.error err) :
    statusWrites (soleSpan (runWrappedTransaction (Except.ok r))) = [] ∧
    finalStatus (soleSpan (runWrappedTransaction (Except.ok r))) = none ∧
    statusWrites (soleSpan (runWrappedQuery runQuery q)) = [] ∧
    finalStatus (soleSpan (runWrappedQuery runQuery q)) = none ∧
    statusWrites (soleSpan (runWrappedTransaction
      ((Except.error err : Except JSValue α)))) ≠ [] ∧
    statusWrites (soleSpan (runWrappedQuery runQueryE q)) ≠ [] := by
  obtain ⟨name, hs⟩ := exists_ok_of_isOk h
  rw [runWrappedTransaction_ok, runWrappedTransaction_error,
    runWrappedQuery_ok runQuery q name res hs hq,
    runWrappedQuery_error runQueryE q name err hs hqe]
  refine ⟨rfl, rfl, ?_, ?_, ?_, ?_⟩
  · simp [soleSpan, statusWrites, statProj]
  · simp [soleSpan, finalStatus, statusWrites, statProj]
  · simp [soleSpan, statusWrites, errorEvents_statProj]
  · simp [soleSpan, statusWrites, errorEvents_statProj]

theorem success_leaves_status_unset_witness :
    (summarizeQuery RootOperationNode.mergeQueryNode).isOk = true ∧
    statusWrites (soleSpan (runWrappedTransaction (Except.ok (0 : Nat)))) = [] ∧
    statusWrites (soleSpan (runWrappedQuery
      (fun _ => Except.error (JSValue.str "boom"))
      { query := RootOperationNode.mergeQueryNode, sql := "MERGE INTO a USING b" })) ≠ [] :=
  ⟨rfl,
    (success_leaves_status_unset (0 : Nat) (JSValue.str "boom")
      (fun _ => Except.ok { rows := [] })
      (fun _ => Except.error (JSValue.str "boom"))
      { query := RootOperationNode.mergeQueryNode, sql := "MERGE INTO a USING b" }
      { rows := [] } rfl rfl rfl).1,
    (success_leaves_status_unset (0 : Nat) (JSValue.str "boom")
      (fun _ => Except.ok { rows := [] })
      (fun _ => Except.error (JSValue.str "boom"))
      { query := RootOperationNode.mergeQueryNode, sql := "MERGE INTO a USING b" }
      { rows := [] } rfl rfl rfl).2.2.2.2.2⟩

/-! ### Theorems about repeated installation -/

theorem wrapTransactionExecute_span_count {α : Type} (prev : TxExecutor α)
    (outcome : Except JSValue α) :
    (wrapTransactionExecute prev outcome).2.length =
      (prev outcome).2.length + 1 := by
  rcases hp : prev outcome with ⟨res, spans⟩
  cases res <;> simp [wrapTransactionExecute, hp]

theorem wrapExecuteQuery_span_count (prev : QExecutor) (q : CompiledQuery)
    (h : (summarizeQuery q.query).isOk = true) :
    (wrapExecuteQuery prev q).2.length = (prev q).2.length + 1 := by
  obtain ⟨name, hs⟩ := exists_ok_of_isOk h
  rcases hp : prev q with ⟨res, spans⟩
  cases res <;> simp [wrapExecuteQuery, hs, hp]

/-- Claim C8: `setupInstrumentation` is not idempotent: each call
wraps whatever entry points are currently installed, so after two
installs an intercepted call goes through two layers of span wrapping
(two spans per call) where a single install produces one. -/
theorem double_install_double_wraps {α : Type} (outcome : Except JSValue α)
    (runQuery : CompiledQuery → Except JSValue QueryResult) (q : CompiledQuery)
    (h : (summarizeQuery q.query).isOk = true) :
    ((setupInstrumentation (basePrototypes α runQuery)).executeQuery q).2.length = 1 ∧
    ((setupInstrumentation (setupInstrumentation
      (basePrototypes α runQuery))).executeQuery q).2.length = 2 ∧
    ((setupInstrumentation (basePrototypes α runQuery)).transactionExecute
      outcome).2.length = 1 ∧
    ((setupInstrumentation (setupInstrumentation
      (basePrototypes α runQuery))).transactionExecute outcome).2.length = 2 := by
  refine ⟨?_, ?_, ?_, ?_⟩
  · show (wrapExecuteQuery (baseExecuteQuery runQuery) q).2.length = 1
    rw [wrapExecuteQuery_span_count _ _ h]
    rfl
  · show (wrapExecuteQuery (wrapExecuteQuery
      (baseExecuteQuery runQuery)) q).2.length = 2
    rw [wrapExecuteQuery_span_count _ _ h, wrapExecuteQuery_span_count _ _ h]
    rfl
  · show (wrapTransactionExecute (baseTransactionExecute α) outcome).2.length = 1
    rw [wrapTransactionExecute_span_count]
    rfl
  · show (wrapTransactionExecute (wrapTransactionExecute
      (baseTransactionExecute α)) outcome).2.length = 2
    rw [wrapTransactionExecute_span_count, wrapTransactionExecute_span_count]
    rfl

theorem double_install_double_wraps_witness :
    (summarizeQuery RootOperationNode.mergeQueryNode).isOk = true ∧
    ((setupInstrumentation (setupInstrumentation (basePrototypes Nat
      (fun _ => Except.ok { rows := [] })))).executeQuery
      { query := RootOperationNode.mergeQueryNode, sql := "MERGE INTO a USING b" }).2.length = 2 :=
  ⟨rfl,
    (double_install_double_wraps (Except.ok (0 : Nat))
      (fun _ => Except.ok { rows := [] })
      { query := RootOperationNode.mergeQueryNode, sql := "MERGE INTO a USING b" }
      rfl).2.1⟩

end KyselyOtel
